import Mathlib

/-!
Shallow embedding of the hospitalization-journey engine of
`src/apps/hospi-copilot/server.ts` (the `hospital_journey` tool handler and
its helper functions), together with proofs about the engine's behaviour.

Conventions of the embedding:
* JavaScript strings are Lean `String`s; `String.prototype.includes` and
  `padStart` and `toLowerCase` are modelled by executable functions below
  (`strIncludes`, `padStart`, `lowerString`); `Char.toLower` lower-cases
  exactly the ASCII letters, which covers every string the handler uses.
* `Math.floor(Math.random() * K) + B` draws a uniform value of
  `{B, ..., B + K - 1}`; it is modelled by `r % K + B` where `r : Nat` is a
  component of an explicit random-source record passed to the handler.
* `new Date()`-derived strings (the admission-date bounds) are modelled by an
  explicit record of three strings passed to the handler.
* `undefined` becomes `Option.none`; JavaScript truthiness tests on optional
  strings and booleans are spelled out at each use site.
-/

/-- Head-match test: `matchAt needle hay` is `true` when `needle` is an
initial segment of `hay`. -/
def matchAt : List Char → List Char → Bool
  | [], _ => true
  | _ :: _, [] => false
  | a :: as, b :: bs => a == b && matchAt as bs

/-- Occurrence test: `containsSub needle hay` is `true` when `needle` occurs
contiguously somewhere inside `hay`. -/
def containsSub (needle : List Char) : List Char → Bool
  | [] => matchAt needle []
  | b :: bs => matchAt needle (b :: bs) || containsSub needle bs

/-- Model of JavaScript `s.includes(sub)` for strings. -/
def strIncludes (s sub : String) : Bool :=
  containsSub sub.data s.data

/-- Model of JavaScript `s.toLowerCase()` (ASCII letters only, which covers
all strings this server handles). -/
def lowerString (s : String) : String :=
  String.mk (s.data.map Char.toLower)

theorem matchAt_iff (n h : List Char) : matchAt n h = true ↔ ∃ t, h = n ++ t := by
  induction n generalizing h with
  | nil => simp [matchAt]
  | cons a as ih =>
    cases h with
    | nil => simp [matchAt]
    | cons b bs =>
      simp only [matchAt, Bool.and_eq_true, beq_iff_eq, ih, List.cons_append,
        List.cons.injEq]
      constructor
      · rintro ⟨rfl, t, rfl⟩; exact ⟨t, rfl, rfl⟩
      · rintro ⟨t, rfl, rfl⟩; exact ⟨rfl, t, rfl⟩

theorem containsSub_iff (n h : List Char) :
    containsSub n h = true ↔ ∃ l r, h = l ++ n ++ r := by
  induction h with
  | nil =>
    simp only [containsSub, matchAt_iff]
    constructor
    · rintro ⟨t, ht⟩
      exact ⟨[], t, by simpa using ht⟩
    · rintro ⟨l, r, h0⟩
      have hl : l = [] := by
        cases l with
        | nil => rfl
        | cons x xs => simp at h0
      subst hl
      exact ⟨r, by simpa using h0⟩
  | cons b bs ih =>
    simp only [containsSub, Bool.or_eq_true, matchAt_iff, ih]
    constructor
    · rintro (⟨t, ht⟩ | ⟨l, r, hlr⟩)
      · exact ⟨[], t, by simpa using ht⟩
      · exact ⟨b :: l, r, by simp [hlr]⟩
    · rintro ⟨l, r, hlr⟩
      cases l with
      | nil => exact Or.inl ⟨r, by simpa using hlr⟩
      | cons x xs =>
        simp only [List.cons_append, List.cons.injEq] at hlr
        exact Or.inr ⟨xs, r, by simp [hlr.1, hlr.2]⟩

/-- Decimal digit list of a natural number, most significant first, with an
explicit structural fuel so that it evaluates inside the kernel. -/
def natDigits : Nat → Nat → List Char
  | 0, n => [Char.ofNat (48 + n % 10)]
  | fuel + 1, n =>
    if n < 10 then [Char.ofNat (48 + n)]
    else natDigits fuel (n / 10) ++ [Char.ofNat (48 + n % 10)]

/-- Model of JavaScript `String(n)` for a non-negative integer. -/
def natToString (n : Nat) : String :=
  String.mk (natDigits n n)

theorem digitChar_isDigit {d : Nat} (hd : d < 10) :
    (Char.ofNat (48 + d)).isDigit = true := by
  have h : ∀ d : Fin 10, (Char.ofNat (48 + d.val)).isDigit = true := by decide
  exact h ⟨d, hd⟩

theorem natDigits_spec :
    ∀ fuel n, n < 10 ^ (fuel + 1) →
      (natDigits fuel n).length = Nat.log 10 n + 1 ∧
        ∀ c ∈ natDigits fuel n, c.isDigit = true := by
  intro fuel
  induction fuel with
  | zero =>
    intro n hn0
    have hn : n < 10 := by simpa using hn0
    refine ⟨?_, ?_⟩
    · have hlog : Nat.log 10 n = 0 := Nat.log_eq_zero_iff.mpr (Or.inl hn)
      simp [natDigits, hlog]
    · intro c hc
      simp only [natDigits, List.mem_singleton] at hc
      subst hc
      exact digitChar_isDigit (Nat.mod_lt _ (by norm_num))
  | succ fuel ih =>
    intro n hn
    by_cases hsmall : n < 10
    · refine ⟨?_, ?_⟩
      · have hlog : Nat.log 10 n = 0 := Nat.log_eq_zero_iff.mpr (Or.inl hsmall)
        simp [natDigits, hsmall, hlog]
      · intro c hc
        simp only [natDigits, if_pos hsmall, List.mem_singleton] at hc
        subst hc
        exact digitChar_isDigit hsmall
    · push_neg at hsmall
      have hdiv : n / 10 < 10 ^ (fuel + 1) := by
        have h10 : (0 : Nat) < 10 := by norm_num
        rw [Nat.div_lt_iff_lt_mul h10]
        calc n < 10 ^ (fuel + 1 + 1) := hn
          _ = 10 ^ (fuel + 1) * 10 := by ring
      obtain ⟨ihlen, ihdig⟩ := ih (n / 10) hdiv
      have hne : ¬ n < 10 := by omega
      refine ⟨?_, ?_⟩
      · have hlogpos : 0 < Nat.log 10 n := Nat.log_pos (by norm_num) hsmall
        have hld : Nat.log 10 (n / 10) = Nat.log 10 n - 1 := Nat.log_div_base 10 n
        simp only [natDigits, if_neg hne, List.length_append, ihlen,
          List.length_singleton]
        omega
      · intro c hc
        simp only [natDigits, if_neg hne, List.mem_append, List.mem_singleton] at hc
        rcases hc with hc | hc
        · exact ihdig c hc
        · subst hc
          exact digitChar_isDigit (Nat.mod_lt _ (by norm_num))

theorem natToString_spec (n : Nat) :
    (natToString n).data.length = Nat.log 10 n + 1 ∧
      ∀ c ∈ (natToString n).data, c.isDigit = true := by
  have hbound : n < 10 ^ (n + 1) := by
    calc n < 10 ^ n := Nat.lt_pow_self (by norm_num) n
      _ ≤ 10 ^ (n + 1) := Nat.pow_le_pow_right (by norm_num) (Nat.le_succ n)
  simpa [natToString] using natDigits_spec n n hbound

/-- Length of the decimal representation for a number in a decade range
`10 ^ k ≤ n < 10 ^ (k + 1)`. -/
theorem natToString_length_of_range {n k : Nat} (h1 : 10 ^ k ≤ n)
    (h2 : n < 10 ^ (k + 1)) : (natToString n).data.length = k + 1 := by
  have := (natToString_spec n).1
  rw [Nat.log_eq_of_pow_le_of_lt_pow h1 h2] at this
  exact this

/-- Upper bound on the length of the decimal representation: below
`10 ^ k` the representation has at most `k` characters (for `k ≥ 1`). -/
theorem natToString_length_le {n k : Nat} (hk : 1 ≤ k) (h : n < 10 ^ k) :
    (natToString n).data.length ≤ k := by
  have hlen := (natToString_spec n).1
  have hlog : Nat.log 10 n ≤ k - 1 := by
    rcases Nat.eq_zero_or_pos n with rfl | hn
    · simp [Nat.log]
    · have hlt : Nat.log 10 n < k := by
        by_contra hcon
        push_neg at hcon
        have hup : 10 ^ k ≤ 10 ^ Nat.log 10 n := Nat.pow_le_pow_right (by norm_num) hcon
        have hpow : 10 ^ Nat.log 10 n ≤ n := Nat.pow_log_le_self 10 (by omega)
        omega
      omega
  omega

/-- Model of JavaScript `s.padStart(n, c)`. -/
def padStart (s : String) (n : Nat) (c : Char) : String :=
  String.mk (List.replicate (n - s.data.length) c ++ s.data)

theorem padStart_length {s : String} {n : Nat} (h : s.data.length ≤ n)
    (c : Char) : (padStart s n c).data.length = n := by
  simp only [padStart, List.length_append, List.length_replicate]
  omega

theorem padStart_digits {s : String} {n : Nat}
    (hs : ∀ c ∈ s.data, c.isDigit = true) :
    ∀ ch ∈ (padStart s n '0').data, ch.isDigit = true := by
  intro ch hch
  simp only [padStart, List.mem_append, List.mem_replicate] at hch
  rcases hch with ⟨-, rfl⟩ | hch
  · decide
  · exact hs ch hch

/-- Format check for the declaration identifier produced by the `review`
case: the literal text `HSP-` followed by exactly six decimal digits. -/
def isHSP (s : String) : Bool :=
  match s.data with
  | a :: b :: c :: d :: rest =>
    a == 'H' && b == 'S' && c == 'P' && d == '-' &&
      rest.length == 6 && rest.all Char.isDigit
  | _ => false

/-- Format check for the `NN.NN.NN-NNN.NN` member-number pattern produced by
`generateMemberNumber` (Belgian NISS-style). -/
def isNISS (s : String) : Bool :=
  match s.data with
  | [a, b, p1, c, d, p2, e, f, dash, g, h, i, p3, j, k] =>
    a.isDigit && b.isDigit && p1 == '.' && c.isDigit && d.isDigit &&
      p2 == '.' && e.isDigit && f.isDigit && dash == '-' && g.isDigit &&
      h.isDigit && i.isDigit && p3 == '.' && j.isDigit && k.isDigit
  | _ => false

theorem isHSP_of_digits (s : String) (hlen : s.data.length = 6)
    (hdig : ∀ c ∈ s.data, c.isDigit = true) :
    isHSP ("HSP-" ++ s) = true := by
  have hdata : ("HSP-" ++ s).data = 'H' :: 'S' :: 'P' :: '-' :: s.data := rfl
  simp only [isHSP, hdata]
  simp only [hlen, beq_self_eq_true, Bool.and_eq_true, and_true, true_and]
  exact List.all_eq_true.mpr hdig

theorem isNISS_of_parts (s1 s2 s3 s4 s5 : String)
    (h1 : s1.data.length = 2) (h2 : s2.data.length = 2)
    (h3 : s3.data.length = 2) (h4 : s4.data.length = 3)
    (h5 : s5.data.length = 2)
    (d1 : ∀ c ∈ s1.data, c.isDigit = true)
    (d2 : ∀ c ∈ s2.data, c.isDigit = true)
    (d3 : ∀ c ∈ s3.data, c.isDigit = true)
    (d4 : ∀ c ∈ s4.data, c.isDigit = true)
    (d5 : ∀ c ∈ s5.data, c.isDigit = true) :
    isNISS (s1 ++ "." ++ s2 ++ "." ++ s3 ++ "-" ++ s4 ++ "." ++ s5) = true := by
  obtain ⟨a1, b1, e1⟩ := List.length_eq_two.mp h1
  obtain ⟨a2, b2, e2⟩ := List.length_eq_two.mp h2
  obtain ⟨a3, b3, e3⟩ := List.length_eq_two.mp h3
  obtain ⟨a4, b4, c4, e4⟩ := List.length_eq_three.mp h4
  obtain ⟨a5, b5, e5⟩ := List.length_eq_two.mp h5
  have hdata : (s1 ++ "." ++ s2 ++ "." ++ s3 ++ "-" ++ s4 ++ "." ++ s5).data =
      s1.data ++ ['.'] ++ s2.data ++ ['.'] ++ s3.data ++ ['-'] ++ s4.data ++
        ['.'] ++ s5.data := rfl
  rw [e1] at d1; rw [e2] at d2; rw [e3] at d3; rw [e4] at d4; rw [e5] at d5
  simp only [List.mem_cons, List.mem_singleton, forall_eq_or_imp, forall_eq,
    List.not_mem_nil, false_implies, and_true] at d1 d2 d3 d4 d5
  simp [isNISS, hdata, e1, e2, e3, e4, e5, d1.1, d1.2, d2.1, d2.2, d3.1, d3.2,
    d4.1, d4.2.1, d4.2.2, d5.1, d5.2]

/-! ## Data model of the journey engine -/

/-- Steps of the journey (the `step` enum of `HospitalJourneyInput`). -/
inductive Step
  | start
  | select_member
  | select_hospital
  | admission_details
  | room_type
  | review
  | submitted
deriving DecidableEq, BEq, Repr

/-- Supported UI languages (`type Language = 'en' | 'nl' | 'fr'`). -/
inductive Lang
  | en
  | nl
  | fr
deriving DecidableEq, Repr

/-- Room type enum of the journey state (`multi`, `single`, `day`). -/
inductive RoomType
  | multi
  | single
  | day
deriving DecidableEq, Repr

/-- One entry of the static hospital catalog. -/
structure Hospital where
  id : String
  name : String
  city : String
deriving DecidableEq, Repr

/-- The static `BELGIAN_HOSPITALS` catalog of `server.ts`. -/
def BELGIAN_HOSPITALS : List Hospital := [
  ⟨"uz-leuven", "UZ Leuven", "Leuven"⟩,
  ⟨"uz-gent", "UZ Gent", "Gent"⟩,
  ⟨"uz-brussel", "UZ Brussel", "Brussel"⟩,
  ⟨"az-sint-jan", "AZ Sint-Jan Brugge-Oostende AV", "Brugge"⟩,
  ⟨"az-groeninge", "AZ Groeninge", "Kortrijk"⟩,
  ⟨"uz-antwerpen", "UZ Antwerpen", "Antwerpen"⟩,
  ⟨"az-sint-lucas", "AZ Sint-Lucas", "Gent"⟩,
  ⟨"az-monica", "AZ Monica", "Antwerpen"⟩,
  ⟨"chu-liege", "CHU de Liège", "Liège"⟩,
  ⟨"cliniques-saint-luc", "Cliniques universitaires Saint-Luc", "Bruxelles"⟩,
  ⟨"hopital-erasme", "Hôpital Erasme", "Bruxelles"⟩,
  ⟨"chu-charleroi", "CHU de Charleroi", "Charleroi"⟩,
  ⟨"az-klina", "AZ Klina", "Brasschaat"⟩,
  ⟨"jessa", "Jessa Ziekenhuis", "Hasselt"⟩,
  ⟨"az-turnhout", "AZ Turnhout", "Turnhout"⟩]

/-- Per-language message table (one field per step, as in `SERVER_MESSAGES`). -/
structure Messages where
  start : String
  select_member : String
  select_hospital : String
  admission_details : String
  room_type : String
  review : String
  submitted : String
deriving DecidableEq, Repr

/-- The `SERVER_MESSAGES` translation tables of `server.ts`. -/
def SERVER_MESSAGES : Lang → Messages
  | .en =>
    { start := "Widget shows step 1: patient selection form."
      select_member := "Widget shows step 2: hospital selection with dropdown."
      select_hospital := "Widget shows step 3: admission date and reason form."
      admission_details := "Widget shows step 4: room type selection."
      room_type := "Widget shows step 5: review all details before submission."
      review := "Declaration submitted. Widget displays confirmation with declaration ID and insurance details."
      submitted := "Declaration complete. All details visible in widget above." }
  | .nl =>
    { start := "Widget toont stap 1: patiëntselectie formulier."
      select_member := "Widget toont stap 2: ziekenhuis selectie met dropdown."
      select_hospital := "Widget toont stap 3: opnamedatum en reden formulier."
      admission_details := "Widget toont stap 4: kamertypeselectie."
      room_type := "Widget toont stap 5: controleer alle details voor indiening."
      review := "Aangifte ingediend. Widget toont bevestiging met aangiftenummer en verzekeringsgegevens."
      submitted := "Aangifte voltooid. Alle details zichtbaar in widget hierboven." }
  | .fr =>
    { start := "Le widget affiche l\x27étape 1 : formulaire de sélection du patient."
      select_member := "Le widget affiche l\x27étape 2 : sélection de l\x27hôpital avec menu déroulant."
      select_hospital := "Le widget affiche l\x27étape 3 : formulaire de date et motif d\x27admission."
      admission_details := "Le widget affiche l\x27étape 4 : sélection du type de chambre."
      room_type := "Le widget affiche l\x27étape 5 : vérifiez tous les détails avant soumission."
      review := "Déclaration soumise. Le widget affiche la confirmation avec l\x27ID de déclaration et les détails d\x27assurance."
      submitted := "Déclaration terminée. Tous les détails visibles dans le widget ci-dessus." }

/-- Third-party payment record produced by `generateThirdPartyPaymentInfo`. -/
structure ThirdPartyPayment where
  coveragePercentage : Nat
  coverageDescription : String
  coveredItems : List String
  estimatedCoPay : String
  priorAuthRequired : Bool
deriving DecidableEq, Repr

/-- Insurance record produced by `generateInsuranceData`. -/
structure InsuranceData where
  memberNumber : String
  policyType : String
  validUntil : String
  thirdPartyPayment : ThirdPartyPayment
  additionalNotes : List String
deriving DecidableEq, Repr

/-- The journey state object of the `HospitalJourneyInput` schema. All fields
are optional; `insuranceData` (a `z.any()` in the schema) is modelled by the
record type the server itself produces for it. -/
structure JourneyState where
  memberId : Option String := none
  memberName : Option String := none
  hospitalId : Option String := none
  hospitalName : Option String := none
  hospitalCity : Option String := none
  abroad : Option Bool := none
  admissionDate : Option String := none
  defaultAdmissionDate : Option String := none
  minAdmissionDate : Option String := none
  maxAdmissionDate : Option String := none
  reason : Option String := none
  accident : Option Bool := none
  roomType : Option RoomType := none
  notes : Option String := none
  declarationId : Option String := none
  insuranceData : Option InsuranceData := none
deriving DecidableEq, Repr

/-- The empty state (`parsed.state ?? {}`). -/
def emptyState : JourneyState := {}

/-- Explicit random source: one component per `Math.random()` call of the
handler, as a natural number that is reduced modulo the range the source
multiplies the random draw by. -/
structure RandSrc where
  decl : Nat
  year : Nat
  month : Nat
  day : Nat
  seq : Nat
  check : Nat
deriving DecidableEq, Repr

/-- Wall-clock-derived admission-date bounds (`getDefaultAdmissionDate`,
`getMinAdmissionDate`, `getMaxAdmissionDate`), passed in explicitly. -/
structure Dates where
  defaultDate : String
  minDate : String
  maxDate : String
deriving DecidableEq, Repr

/-- Parsed tool input after the zod layer (`HospitalJourneyInput.parse`):
`step` and `language` have their defaults applied, `state` and `goBack`
remain optional. -/
structure ParsedInput where
  step : Step
  language : Lang
  state : Option JourneyState
  goBack : Option Bool
deriving DecidableEq, Repr

/-- Raw tool arguments as they reach `HospitalJourneyInput.parse`: `step`
and `language` are arbitrary optional strings still to be validated. -/
structure RawInput where
  step : Option String
  language : Option String
  state : Option JourneyState
  goBack : Option Bool
deriving DecidableEq, Repr

/-- The handler's observable result: the `structuredContent` object
(`step`, `state`, `language`, `hospitalList`) plus the narrative text. -/
structure JourneyResult where
  step : Step
  state : JourneyState
  language : Lang
  hospitalList : List Hospital
  message : String
deriving DecidableEq, Repr

/-! ## Demo data generators (`server.ts` lines 93-164) -/

/-- Model of `generateMemberNumber`: Belgian NISS-style
`YY.MM.DD-SSS.CC` string with randomized components. -/
def generateMemberNumber (r : RandSrc) : String :=
  let year := r.year % 40 + 60
  let month := padStart (natToString (r.month % 12 + 1)) 2 '0'
  let day := padStart (natToString (r.day % 28 + 1)) 2 '0'
  let seq := padStart (natToString (r.seq % 999 + 1)) 3 '0'
  let check := padStart (natToString (r.check % 99)) 2 '0'
  natToString year ++ "." ++ month ++ "." ++ day ++ "-" ++ seq ++ "." ++ check

/-- Model of `generateThirdPartyPaymentInfo`. `state.roomType || 'multi'`
and `state.accident || false` become `getD` defaults, and
`(state.reason || '').toLowerCase()` becomes `lowerString` of the
defaulted reason. -/
def generateThirdPartyPaymentInfo (state : JourneyState) : ThirdPartyPayment :=
  let roomType := state.roomType.getD RoomType.multi
  let isAccident := state.accident.getD false
  let coveragePercentage := if roomType = RoomType.single then 75 else 100
  let coverageDescription :=
    if roomType = RoomType.single then
      "Partial coverage (75%) - supplement for single room"
    else "Full coverage (100%)"
  let estimatedCoPay :=
    if roomType = RoomType.single then
      "€50-150 per day (room supplement)"
    else "€0"
  let reason := lowerString (state.reason.getD "")
  let priorAuthRequired :=
    strIncludes reason "surgery" || strIncludes reason "operation" ||
      strIncludes reason "childbirth"
  let coveredItems := [
    "Medical and specialist fees",
    "Room and board",
    "Medications and medical supplies",
    "Diagnostic tests and imaging"]
  let coveredItems :=
    if isAccident then coveredItems ++ ["Accident-related care"] else coveredItems
  let coveredItems :=
    if roomType = RoomType.day then coveredItems ++ ["Day clinic procedures"]
    else coveredItems
  { coveragePercentage, coverageDescription, coveredItems, estimatedCoPay,
    priorAuthRequired }

/-- Model of `generateInsuranceData`: member number, fixed policy fields,
third-party payment record, and contextual notes (the `filter(Boolean)`
over a list with one conditional entry). -/
def generateInsuranceData (r : RandSrc) (state : JourneyState) : InsuranceData :=
  { memberNumber := generateMemberNumber r
    policyType := "Premium Health Insurance"
    validUntil := "31/12/2026"
    thirdPartyPayment := generateThirdPartyPaymentInfo state
    additionalNotes :=
      ([some "Please bring your eID card to the hospital",
        some "Confirm your admission 48 hours in advance",
        if state.accident.getD false then
          some "For accident-related admissions, a police report may be required"
        else none]).filterMap id }

/-! ## Step order and transitions (`server.ts` lines 289-368) -/

/-- The `stepOrder` array of the goBack handler. -/
def stepOrder : List Step :=
  [Step.start, Step.select_member, Step.select_hospital, Step.admission_details,
   Step.room_type, Step.review, Step.submitted]

/-- The back-navigation move: `stepOrder[currentIndex - 1]` when the index is
positive, the step itself otherwise (`server.ts` lines 294-297). -/
def goBackStep (step : Step) : Step :=
  let currentIndex := stepOrder.indexOf step
  if currentIndex > 0 then stepOrder.getD (currentIndex - 1) step else step

/-- The effective step once the goBack flag has been applied (`if
(parsed.goBack)` is JavaScript-truthy exactly for the value `true`). -/
def effStep (p : ParsedInput) : Step :=
  if p.goBack.getD false then goBackStep p.step else p.step

/-- Forward transition of the switch statement: the `nextStep` value each
case assigns. -/
def nextOf : Step → Step
  | .start => .select_member
  | .select_member => .select_hospital
  | .select_hospital => .admission_details
  | .admission_details => .room_type
  | .room_type => .review
  | .review => .submitted
  | .submitted => .submitted

/-- Truthiness test of `state.hospitalId && state.hospitalId !== "other"`. -/
def hospitalIdChosen (state : JourneyState) : Bool :=
  match state.hospitalId with
  | none => false
  | some s => s != "" && s != "other"

/-- State update of the `select_hospital` case: auto-populate hospital name
and city (and force `abroad := false`) when the id matches a catalog entry. -/
def applyHospitalChoice (state : JourneyState) : JourneyState :=
  if hospitalIdChosen state then
    match BELGIAN_HOSPITALS.find? (fun hsp => hsp.id == state.hospitalId.getD "") with
    | some hospital =>
      { state with hospitalName := some hospital.name,
                   hospitalCity := some hospital.city,
                   abroad := some false }
    | none => state
  else state

/-- The `hospital_journey` handler after schema validation (`server.ts`
lines 281-388): computes the effective step, runs the switch, and returns
the `structuredContent` object plus the narrative message. -/
def hospitalJourney (r : RandSrc) (d : Dates) (p : ParsedInput) : JourneyResult :=
  let state := p.state.getD emptyState
  let language := p.language
  let messages := SERVER_MESSAGES language
  let step := effStep p
  match step with
  | .start =>
    { step := .select_member, state, language,
      hospitalList := BELGIAN_HOSPITALS, message := messages.start }
  | .select_member =>
    { step := .select_hospital, state, language,
      hospitalList := BELGIAN_HOSPITALS, message := messages.select_member }
  | .select_hospital =>
    { step := .admission_details, state := applyHospitalChoice state, language,
      hospitalList := BELGIAN_HOSPITALS, message := messages.select_hospital }
  | .admission_details =>
    { step := .room_type,
      state := { state with defaultAdmissionDate := some d.defaultDate,
                            minAdmissionDate := some d.minDate,
                            maxAdmissionDate := some d.maxDate },
      language, hospitalList := BELGIAN_HOSPITALS,
      message := messages.admission_details }
  | .room_type =>
    { step := .review, state, language,
      hospitalList := BELGIAN_HOSPITALS, message := messages.room_type }
  | .review =>
    let fakeId := "HSP-" ++ natToString (r.decl % 900000 + 100000)
    let state1 := { state with declarationId := some fakeId }
    let state2 := { state1 with insuranceData := some (generateInsuranceData r state1) }
    { step := .submitted, state := state2, language,
      hospitalList := BELGIAN_HOSPITALS, message := messages.review }
  | .submitted =>
    { step := .submitted, state, language,
      hospitalList := BELGIAN_HOSPITALS, message := messages.submitted }

/-! ## The zod schema layer (`HospitalJourneyInput.parse`) -/

/-- Validation of the `step` argument: the seven enum literals are accepted,
an absent value defaults to `"start"`, anything else is a `ZodError`. -/
def parseStep : Option String → Except String Step
  | none => .ok .start
  | some "start" => .ok .start
  | some "select_member" => .ok .select_member
  | some "select_hospital" => .ok .select_hospital
  | some "admission_details" => .ok .admission_details
  | some "room_type" => .ok .room_type
  | some "review" => .ok .review
  | some "submitted" => .ok .submitted
  | some _ => .error "ZodError: invalid enum value for step"

/-- Validation of the `language` argument: `en`, `nl`, `fr` are accepted, an
absent value defaults to `"en"`, anything else is a `ZodError` (no fallback
for unsupported values: the parse throws). -/
def parseLanguage : Option String → Except String Lang
  | none => .ok .en
  | some "en" => .ok .en
  | some "nl" => .ok .nl
  | some "fr" => .ok .fr
  | some _ => .error "ZodError: invalid enum value for language"

/-- The whole schema layer: validates step and language and passes state and
goBack through. -/
def parseInput (raw : RawInput) : Except String ParsedInput := do
  let step ← parseStep raw.step
  let language ← parseLanguage raw.language
  .ok { step, language, state := raw.state, goBack := raw.goBack }

/-- The tool call as observed from outside: schema validation followed by the
handler; a schema failure surfaces as an error, never reaching the engine. -/
def hospitalJourneyTool (r : RandSrc) (d : Dates) (raw : RawInput) :
    Except String JourneyResult :=
  (parseInput raw).map (hospitalJourney r d)

/-! ## Shared lemmas about the handler -/

/-- Explicit table for the one-position-back move, provably equal to
`goBackStep`. -/
def prevOf : Step → Step
  | .start => .start
  | .select_member => .start
  | .select_hospital => .select_member
  | .admission_details => .select_hospital
  | .room_type => .admission_details
  | .review => .room_type
  | .submitted => .review

theorem goBackStep_eq_prevOf (s : Step) : goBackStep s = prevOf s := by
  cases s <;> decide

/-- Message selected by the switch for a given language and effective step. -/
def messageOf (lang : Lang) : Step → String
  | .start => (SERVER_MESSAGES lang).start
  | .select_member => (SERVER_MESSAGES lang).select_member
  | .select_hospital => (SERVER_MESSAGES lang).select_hospital
  | .admission_details => (SERVER_MESSAGES lang).admission_details
  | .room_type => (SERVER_MESSAGES lang).room_type
  | .review => (SERVER_MESSAGES lang).review
  | .submitted => (SERVER_MESSAGES lang).submitted

theorem handler_step (r : RandSrc) (d : Dates) (p : ParsedInput) :
    (hospitalJourney r d p).step = nextOf (effStep p) := by
  cases h : effStep p <;> simp [hospitalJourney, h, nextOf]

theorem handler_language (r : RandSrc) (d : Dates) (p : ParsedInput) :
    (hospitalJourney r d p).language = p.language := by
  cases h : effStep p <;> simp [hospitalJourney, h]

theorem handler_message (r : RandSrc) (d : Dates) (p : ParsedInput) :
    (hospitalJourney r d p).message = messageOf p.language (effStep p) := by
  cases h : effStep p <;> simp [hospitalJourney, h, messageOf]

theorem messageOf_nonempty (lang : Lang) (s : Step) : messageOf lang s ≠ "" := by
  cases lang <;> cases s <;> decide

theorem applyHospitalChoice_declarationId (st : JourneyState) :
    (applyHospitalChoice st).declarationId = st.declarationId := by
  unfold applyHospitalChoice
  split
  · split <;> rfl
  · rfl

theorem applyHospitalChoice_insuranceData (st : JourneyState) :
    (applyHospitalChoice st).insuranceData = st.insuranceData := by
  unfold applyHospitalChoice
  split
  · split <;> rfl
  · rfl

/-! ## Format lemmas for the generated identifiers -/

theorem declarationId_isHSP (r : RandSrc) :
    isHSP ("HSP-" ++ natToString (r.decl % 900000 + 100000)) = true := by
  have hlo : 10 ^ 5 ≤ r.decl % 900000 + 100000 := by norm_num
  have hhi : r.decl % 900000 + 100000 < 10 ^ (5 + 1) := by
    have := Nat.mod_lt r.decl (y := 900000) (by norm_num)
    norm_num
    omega
  exact isHSP_of_digits _ (natToString_length_of_range hlo hhi)
    (natToString_spec _).2

theorem memberNumber_isNISS (r : RandSrc) :
    isNISS (generateMemberNumber r) = true := by
  have hy : (natToString (r.year % 40 + 60)).data.length = 2 := by
    have hlo : 10 ^ 1 ≤ r.year % 40 + 60 := by norm_num
    have hhi : r.year % 40 + 60 < 10 ^ (1 + 1) := by
      have := Nat.mod_lt r.year (y := 40) (by norm_num)
      norm_num
      omega
    simpa using natToString_length_of_range hlo hhi
  have hm : (padStart (natToString (r.month % 12 + 1)) 2 '0').data.length = 2 :=
    padStart_length (natToString_length_le (by norm_num) (by
      have := Nat.mod_lt r.month (y := 12) (by norm_num)
      norm_num
      omega)) '0'
  have hd : (padStart (natToString (r.day % 28 + 1)) 2 '0').data.length = 2 :=
    padStart_length (natToString_length_le (by norm_num) (by
      have := Nat.mod_lt r.day (y := 28) (by norm_num)
      norm_num
      omega)) '0'
  have hs : (padStart (natToString (r.seq % 999 + 1)) 3 '0').data.length = 3 :=
    padStart_length (natToString_length_le (by norm_num) (by
      have := Nat.mod_lt r.seq (y := 999) (by norm_num)
      norm_num
      omega)) '0'
  have hc : (padStart (natToString (r.check % 99)) 2 '0').data.length = 2 :=
    padStart_length (natToString_length_le (by norm_num) (by
      have := Nat.mod_lt r.check (y := 99) (by norm_num)
      norm_num
      omega)) '0'
  have hnum :
      generateMemberNumber r =
        natToString (r.year % 40 + 60) ++ "." ++
          padStart (natToString (r.month % 12 + 1)) 2 '0' ++ "." ++
          padStart (natToString (r.day % 28 + 1)) 2 '0' ++ "-" ++
          padStart (natToString (r.seq % 999 + 1)) 3 '0' ++ "." ++
          padStart (natToString (r.check % 99)) 2 '0' := rfl
  rw [hnum]
  exact isNISS_of_parts _ _ _ _ _ hy hm hd hs hc
    (natToString_spec _).2
    (padStart_digits (natToString_spec _).2)
    (padStart_digits (natToString_spec _).2)
    (padStart_digits (natToString_spec _).2)
    (padStart_digits (natToString_spec _).2)

/-! ## Concrete inputs used by counterexamples and witnesses -/

/-- The all-zero random source (every `Math.random()` draw returning 0). -/
def rand0 : RandSrc := ⟨0, 0, 0, 0, 0, 0⟩

/-- A fixed clock for the admission-date bounds. -/
def dates0 : Dates := ⟨"2026-10-18", "2026-10-11", "2027-10-11"⟩

/-! ## Claims C1-C4: back-navigation behaviour -/

/-- C1, counterexample: calling the handler at the first step `start` with
`goBack = true` does NOT return `start` as the output step: the goBack
handling leaves the effective step at `start` and the switch then advances,
so the returned `structuredContent.step` is `select_member`. -/
theorem claim_C1_counterexample :
    (hospitalJourney rand0 dates0
        ⟨Step.start, Lang.en, none, some true⟩).step = Step.select_member ∧
      Step.select_member ≠ Step.start := by
  decide

/-- C1, amended: with `goBack = true` at the first step `start`, the goBack
handling leaves the effective step at `start` (no underflow past the
beginning of the step order), and the call then behaves exactly like the
forward call at `start`: the output step is `select_member`. -/
theorem claim_C1_goBack_at_start (r : RandSrc) (d : Dates) (p : ParsedInput)
    (hstep : p.step = Step.start) (hgb : p.goBack = some true) :
    goBackStep p.step = Step.start ∧
      (hospitalJourney r d p).step = Step.select_member := by
  constructor
  · rw [hstep]; decide
  · rw [handler_step]
    simp [effStep, hgb, hstep, goBackStep_eq_prevOf, prevOf, nextOf]

/-- C1, witness for the amended theorem at a concrete input. -/
theorem claim_C1_witness :
    goBackStep Step.start = Step.start ∧
      (hospitalJourney rand0 dates0
        ⟨Step.start, Lang.en, none, some true⟩).step = Step.select_member :=
  claim_C1_goBack_at_start rand0 dates0 ⟨Step.start, Lang.en, none, some true⟩
    rfl rfl

/-- C2, counterexample: from `select_member` (index 1 in the step order) one
`goBack = true` call must reach `start` according to the claim, but the
output step is `select_member` itself, and it stays there on every further
call, so the iteration never reaches `start`. -/
theorem claim_C2_counterexample :
    (hospitalJourney rand0 dates0
        ⟨Step.select_member, Lang.en, none, some true⟩).step =
      Step.select_member ∧ Step.select_member ≠ Step.start := by
  decide

/-- C2, amended: feeding the output step back in with `goBack = true` is
stationary from the very first call and never reaches `start`: a goBack call
at any step `s` other than `start` outputs `s` itself (the switch advances
`previousOf(s)` right back to `s`), and a goBack call at `start` outputs
`select_member`, where the iteration then stays. -/
theorem claim_C2_goBack_stationary (r : RandSrc) (d : Dates) (p : ParsedInput)
    (hgb : p.goBack = some true) :
    (hospitalJourney r d p).step =
      (if p.step = Step.start then Step.select_member else p.step) := by
  rw [handler_step]
  cases hs : p.step <;>
    simp [effStep, hgb, hs, goBackStep_eq_prevOf, prevOf, nextOf]

/-- C2, witness for the amended theorem at a concrete input. -/
theorem claim_C2_witness :
    (hospitalJourney rand0 dates0
        ⟨Step.review, Lang.en, none, some true⟩).step =
      (if Step.review = Step.start then Step.select_member else Step.review) :=
  claim_C2_goBack_stationary rand0 dates0
    ⟨Step.review, Lang.en, none, some true⟩ rfl

/-- C3, counterexample: the claim quantifies over every catalog step except
the first, but at the terminal step `submitted` the forward transition is the
identity, so `previousOf(nextOf(submitted)) = review ≠ submitted`. -/
theorem claim_C3_counterexample :
    goBackStep (nextOf Step.submitted) ≠ Step.submitted := by
  decide

/-- C3, amended: `previousOf(nextOf(s)) = s` for every step `s` of the
catalog except the first (`start`) and the terminal step (`submitted`),
where `nextOf` is the forward transition of the switch and `previousOf` is
the one-position-back move used for goBack. -/
theorem claim_C3_prev_next (s : Step) (h1 : s ≠ Step.start)
    (h2 : s ≠ Step.submitted) : goBackStep (nextOf s) = s := by
  cases s
  · exact absurd rfl h1
  all_goals first
  | exact absurd rfl h2
  | decide

/-- C3, witness for the amended theorem at a concrete step. -/
theorem claim_C3_witness : goBackStep (nextOf Step.review) = Step.review :=
  claim_C3_prev_next Step.review (by decide) (by decide)

/-- C4, counterexample: a `goBack = true` call CAN re-run derived-data
generation: at input step `submitted` the effective step becomes `review`,
which regenerates the declaration id and the insurance record, so the
returned fields differ from the (empty) input ones. -/
theorem claim_C4_counterexample :
    (hospitalJourney rand0 dates0
        ⟨Step.submitted, Lang.en, none, some true⟩).state.declarationId ≠
      emptyState.declarationId ∧
      (hospitalJourney rand0 dates0
        ⟨Step.submitted, Lang.en, none, some true⟩).state.insuranceData ≠
        emptyState.insuranceData := by
  decide

/-- C4, amended: a `goBack = true` call leaves `declarationId` and
`insuranceData` untouched for every input step except `submitted`; only a
goBack call from `submitted` (whose effective step is `review`, the step
that owns derived-data generation) regenerates them. -/
theorem claim_C4_goBack_frames (r : RandSrc) (d : Dates) (p : ParsedInput)
    (hgb : p.goBack = some true) (hs : p.step ≠ Step.submitted) :
    (hospitalJourney r d p).state.declarationId =
        (p.state.getD emptyState).declarationId ∧
      (hospitalJourney r d p).state.insuranceData =
        (p.state.getD emptyState).insuranceData := by
  have heff : effStep p = prevOf p.step := by
    simp [effStep, hgb, goBackStep_eq_prevOf]
  cases hstep : p.step
  case submitted => exact absurd hstep hs
  all_goals
    rw [hstep] at heff
    simp only [prevOf] at heff
    constructor <;>
      simp [hospitalJourney, heff, applyHospitalChoice_declarationId,
        applyHospitalChoice_insuranceData]

/-- C4, witness for the amended theorem at a concrete input (a goBack call
at `review`, whose effective step `room_type` touches nothing). -/
theorem claim_C4_witness :
    (hospitalJourney rand0 dates0
        ⟨Step.review, Lang.en, none, some true⟩).state.declarationId =
        ((none : Option JourneyState).getD emptyState).declarationId ∧
      (hospitalJourney rand0 dates0
        ⟨Step.review, Lang.en, none, some true⟩).state.insuranceData =
        ((none : Option JourneyState).getD emptyState).insuranceData :=
  claim_C4_goBack_frames rand0 dates0 ⟨Step.review, Lang.en, none, some true⟩
    rfl (by decide)

/-! ## Claims C5-C6: the coverage generator -/

/-- The base list of four covered service categories. -/
def baseCoveredItems : List String :=
  ["Medical and specialist fees", "Room and board",
   "Medications and medical supplies", "Diagnostic tests and imaging"]

/-- C5: `generateThirdPartyPaymentInfo` (the spec's `deriveCoverage`) gives
coverage percentage 75 with the supplemental-copay description exactly for
the reduced-tier room category (`single`), coverage 100 with zero copay
(`€0`) for every other category, and extends the base list of four covered
service categories by exactly one extra item for the accident flag and one
extra item for the same-day category (`day`). -/
theorem claim_C5_coverage (st : JourneyState) :
    ((generateThirdPartyPaymentInfo st).coveragePercentage =
        if st.roomType.getD RoomType.multi = RoomType.single then 75
        else 100) ∧
      ((generateThirdPartyPaymentInfo st).estimatedCoPay =
        if st.roomType.getD RoomType.multi = RoomType.single then
          "€50-150 per day (room supplement)"
        else "€0") ∧
      (generateThirdPartyPaymentInfo st).coveredItems.take 4 =
        baseCoveredItems ∧
      (generateThirdPartyPaymentInfo st).coveredItems.length =
        4 + (if st.accident.getD false then 1 else 0) +
          (if st.roomType.getD RoomType.multi = RoomType.day then 1
           else 0) := by
  rcases hrt : st.roomType with - | rt
  · rcases hacc : st.accident with - | acc
    · simp [generateThirdPartyPaymentInfo, hrt, hacc, baseCoveredItems]
    · cases acc <;>
        simp [generateThirdPartyPaymentInfo, hrt, hacc, baseCoveredItems]
  · rcases hacc : st.accident with - | acc
    · cases rt <;>
        simp [generateThirdPartyPaymentInfo, hrt, hacc, baseCoveredItems]
    · cases rt <;> cases acc <;>
        simp [generateThirdPartyPaymentInfo, hrt, hacc, baseCoveredItems]

/-- The keyword list scanned against the lower-cased free-text reason. -/
def coverageKeywords : List String := ["surgery", "operation", "childbirth"]

/-- Contiguous-occurrence predicate on strings: `OccursIn needle hay` holds
when `needle` appears somewhere inside `hay`. -/
def OccursIn (needle hay : String) : Prop :=
  ∃ l r, hay.data = l ++ needle.data ++ r

/-- C6: the prior-authorization flag is true if and only if the lower-cased
free-text reason contains one of the configured keywords (all three keywords
are lower-case, so this is the case-insensitive match of the claim); in
particular reason `knee surgery` yields `true` and reason `checkup` yields
`false` whatever the other state fields are. -/
theorem claim_C6_priorAuth :
    (∀ st : JourneyState,
        ((generateThirdPartyPaymentInfo st).priorAuthRequired = true ↔
          ∃ kw ∈ coverageKeywords,
            OccursIn kw (lowerString (st.reason.getD "")))) ∧
      (∀ st : JourneyState, st.reason = some "knee surgery" →
        (generateThirdPartyPaymentInfo st).priorAuthRequired = true) ∧
      (∀ st : JourneyState, st.reason = some "checkup" →
        (generateThirdPartyPaymentInfo st).priorAuthRequired = false) := by
  refine ⟨?_, ?_, ?_⟩
  · intro st
    have hpa : (generateThirdPartyPaymentInfo st).priorAuthRequired =
        (strIncludes (lowerString (st.reason.getD "")) "surgery" ||
          strIncludes (lowerString (st.reason.getD "")) "operation" ||
          strIncludes (lowerString (st.reason.getD "")) "childbirth") := rfl
    rw [hpa]
    simp only [Bool.or_eq_true, strIncludes, containsSub_iff]
    constructor
    · rintro ((h | h) | h)
      · exact ⟨"surgery", by simp [coverageKeywords], h⟩
      · exact ⟨"operation", by simp [coverageKeywords], h⟩
      · exact ⟨"childbirth", by simp [coverageKeywords], h⟩
    · rintro ⟨kw, hkw, hocc⟩
      simp only [coverageKeywords, List.mem_cons, List.not_mem_nil,
        or_false] at hkw
      rcases hkw with rfl | rfl | rfl
      · exact Or.inl (Or.inl hocc)
      · exact Or.inl (Or.inr hocc)
      · exact Or.inr hocc
  · intro st h
    simp only [generateThirdPartyPaymentInfo, h]
    decide
  · intro st h
    simp only [generateThirdPartyPaymentInfo, h]
    decide

/-- C6, witness: the two concrete reason examples of the claim. -/
theorem claim_C6_witness :
    (generateThirdPartyPaymentInfo
        { emptyState with reason := some "knee surgery" }).priorAuthRequired =
        true ∧
      (generateThirdPartyPaymentInfo
        { emptyState with reason := some "checkup" }).priorAuthRequired =
        false :=
  ⟨claim_C6_priorAuth.2.1 _ rfl, claim_C6_priorAuth.2.2 _ rfl⟩

/-! ## Claims C7-C10 -/

/-- C7, counterexample: in the end-to-end review scenario the returned
`declarationId` is `HSP-` followed by six digits (here `HSP-100000` under
the all-zero random source), which does not match the `NN.NN.NN-NNN.NN`
identifier pattern the claim names for it. -/
theorem claim_C7_counterexample :
    (hospitalJourney rand0 dates0
        ⟨Step.review, Lang.en,
          some { emptyState with roomType := some RoomType.single,
                                 reason := some "childbirth" },
          some false⟩).state.declarationId = some "HSP-100000" ∧
      isNISS "HSP-100000" = false := by
  decide

/-- C7, amended: every call at step `review` with `goBack = false`, room
type `single` (the reduced tier) and reason `childbirth` outputs step
`submitted`, a third-party payment record with coverage percentage 75 and
prior authorization required, a `declarationId` matching the `HSP-` plus
six digits format, and a member number inside the insurance record matching
the `NN.NN.NN-NNN.NN` pattern (the pattern every `generateMemberNumber`
output matches). -/
theorem claim_C7_review_scenario (r : RandSrc) (d : Dates) (lang : Lang)
    (st : JourneyState) (hrt : st.roomType = some RoomType.single)
    (hre : st.reason = some "childbirth") :
    (hospitalJourney r d ⟨Step.review, lang, some st, some false⟩).step =
        Step.submitted ∧
      isHSP ((hospitalJourney r d
          ⟨Step.review, lang, some st, some false⟩).state.declarationId.getD
        "") = true ∧
      ∃ idata,
        (hospitalJourney r d
            ⟨Step.review, lang, some st, some false⟩).state.insuranceData =
          some idata ∧
        idata.thirdPartyPayment.coveragePercentage = 75 ∧
        idata.thirdPartyPayment.priorAuthRequired = true ∧
        isNISS idata.memberNumber = true := by
  have heff : effStep ⟨Step.review, lang, some st, some false⟩ = Step.review := rfl
  set fid : String := "HSP-" ++ natToString (r.decl % 900000 + 100000) with hfid
  set st1 : JourneyState := { st with declarationId := some fid } with hst1
  refine ⟨?_, ?_, ?_⟩
  · rw [handler_step, heff]; rfl
  · show isHSP fid = true
    rw [hfid]
    exact declarationId_isHSP r
  · refine ⟨generateInsuranceData r st1, rfl, ?_, ?_, ?_⟩
    · show (generateThirdPartyPaymentInfo st1).coveragePercentage = 75
      simp [generateThirdPartyPaymentInfo, hrt]
    · show (generateThirdPartyPaymentInfo st1).priorAuthRequired = true
      have hpa : (generateThirdPartyPaymentInfo st1).priorAuthRequired =
          (strIncludes (lowerString "childbirth") "surgery" ||
            strIncludes (lowerString "childbirth") "operation" ||
            strIncludes (lowerString "childbirth") "childbirth") := by
        simp [generateThirdPartyPaymentInfo, hre]
      rw [hpa]; decide
    · exact memberNumber_isNISS r

/-- C7, witness for the amended theorem at a concrete input. -/
theorem claim_C7_witness :
    (hospitalJourney rand0 dates0
        ⟨Step.review, Lang.en,
          some { emptyState with roomType := some RoomType.single,
                                 reason := some "childbirth" },
          some false⟩).step = Step.submitted ∧
      isHSP ((hospitalJourney rand0 dates0
          ⟨Step.review, Lang.en,
            some { emptyState with roomType := some RoomType.single,
                                   reason := some "childbirth" },
            some false⟩).state.declarationId.getD "") = true ∧
      ∃ idata,
        (hospitalJourney rand0 dates0
            ⟨Step.review, Lang.en,
              some { emptyState with roomType := some RoomType.single,
                                     reason := some "childbirth" },
              some false⟩).state.insuranceData = some idata ∧
        idata.thirdPartyPayment.coveragePercentage = 75 ∧
        idata.thirdPartyPayment.priorAuthRequired = true ∧
        isNISS idata.memberNumber = true :=
  claim_C7_review_scenario rand0 dates0 Lang.en
    { emptyState with roomType := some RoomType.single,
                      reason := some "childbirth" } rfl rfl

/-- The seven English narrative messages. -/
def englishMessages : List String :=
  [(SERVER_MESSAGES Lang.en).start, (SERVER_MESSAGES Lang.en).select_member,
   (SERVER_MESSAGES Lang.en).select_hospital,
   (SERVER_MESSAGES Lang.en).admission_details,
   (SERVER_MESSAGES Lang.en).room_type, (SERVER_MESSAGES Lang.en).review,
   (SERVER_MESSAGES Lang.en).submitted]

theorem messageOf_mem_english (s : Step) :
    messageOf Lang.en s ∈ englishMessages := by
  cases s <;> simp [messageOf, englishMessages]

/-- C8, counterexample: an input whose language value is not one of the
supported locales is rejected by the schema layer (`ZodError`), so the
engine produces no result at all instead of falling back to `en`. -/
theorem claim_C8_counterexample :
    hospitalJourneyTool rand0 dates0 ⟨some "start", some "de", none, none⟩ =
      Except.error "ZodError: invalid enum value for language" := by
  rfl

/-- C8, amended: an unsupported language value never reaches the engine (the
zod enum rejects it); the default-locale fallback exists only for an ABSENT
language: when the input omits `language`, the parse defaults it to `en` and
the engine's result carries language `en` and one of the English messages. -/
theorem claim_C8_language_default (r : RandSrc) (d : Dates) (raw : RawInput)
    (res : JourneyResult) (hlang : raw.language = none)
    (hok : hospitalJourneyTool r d raw = Except.ok res) :
    res.language = Lang.en ∧ res.message ∈ englishMessages := by
  unfold hospitalJourneyTool parseInput at hok
  rw [hlang] at hok
  cases hstep : parseStep raw.step with
  | error e => rw [hstep] at hok; simp [bind, Except.bind, Except.map] at hok
  | ok s =>
    rw [hstep] at hok
    simp only [parseLanguage, Except.bind, Except.map] at hok
    have hres : res = hospitalJourney r d ⟨s, Lang.en, raw.state, raw.goBack⟩ := by
      cases hok
      rfl
    subst hres
    constructor
    · rw [handler_language]
    · rw [handler_message]
      exact messageOf_mem_english _

/-- C8, witness for the amended theorem at a concrete input omitting the
language field. -/
theorem claim_C8_witness :
    (hospitalJourney rand0 dates0
        ⟨Step.start, Lang.en, none, none⟩).language = Lang.en ∧
      (hospitalJourney rand0 dates0
        ⟨Step.start, Lang.en, none, none⟩).message ∈ englishMessages :=
  claim_C8_language_default rand0 dates0 ⟨some "start", none, none, none⟩
    (hospitalJourney rand0 dates0 ⟨Step.start, Lang.en, none, none⟩) rfl rfl

/-- C9: the engine is total over its declared domain: every input accepted
by the schema layer reaches the handler, which never takes an error path and
returns a result with a step of the same enum, a state object and a
non-empty narrative message. -/
theorem claim_C9_total (r : RandSrc) (d : Dates) (raw : RawInput)
    (p : ParsedInput) (hok : parseInput raw = Except.ok p) :
    hospitalJourneyTool r d raw = Except.ok (hospitalJourney r d p) ∧
      (hospitalJourney r d p).message ≠ "" := by
  constructor
  · simp [hospitalJourneyTool, hok, Except.map]
  · rw [handler_message]
    exact messageOf_nonempty _ _

/-- C9, witness at a concrete schema-valid input (all-default arguments). -/
theorem claim_C9_witness :
    hospitalJourneyTool rand0 dates0 ⟨none, none, none, none⟩ =
        Except.ok (hospitalJourney rand0 dates0
          ⟨Step.start, Lang.en, none, none⟩) ∧
      (hospitalJourney rand0 dates0
        ⟨Step.start, Lang.en, none, none⟩).message ≠ "" :=
  claim_C9_total rand0 dates0 ⟨none, none, none, none⟩
    ⟨Step.start, Lang.en, none, none⟩ rfl

/-- C10: a forward call at `select_hospital` whose state carries the id of a
catalog hospital copies that hospital's name and city into the state, forces
`abroad := false` (overwriting any caller-supplied value), leaves every
other state field unchanged, and moves on to `admission_details`. -/
theorem claim_C10_hospital_lookup (r : RandSrc) (d : Dates) (lang : Lang)
    (st : JourneyState) (h : Hospital) (hmem : h ∈ BELGIAN_HOSPITALS)
    (hid : st.hospitalId = some h.id) :
    (hospitalJourney r d
          ⟨Step.select_hospital, lang, some st, none⟩).state =
        { st with hospitalName := some h.name, hospitalCity := some h.city,
                  abroad := some false } ∧
      (hospitalJourney r d
          ⟨Step.select_hospital, lang, some st, none⟩).step =
        Step.admission_details := by
  refine ⟨?_, rfl⟩
  show applyHospitalChoice st =
    { st with hospitalName := some h.name, hospitalCity := some h.city,
              abroad := some false }
  fin_cases hmem <;>
    simp [applyHospitalChoice, hospitalIdChosen, hid, BELGIAN_HOSPITALS,
      List.find?]

/-- C10, witness at a concrete catalog hospital. -/
theorem claim_C10_witness :
    (hospitalJourney rand0 dates0
          ⟨Step.select_hospital, Lang.en,
            some { emptyState with hospitalId := some "uz-leuven",
                                   abroad := some true }, none⟩).state =
        { { emptyState with hospitalId := some "uz-leuven",
                            abroad := some true } with
            hospitalName := some "UZ Leuven", hospitalCity := some "Leuven",
            abroad := some false } ∧
      (hospitalJourney rand0 dates0
          ⟨Step.select_hospital, Lang.en,
            some { emptyState with hospitalId := some "uz-leuven",
                                   abroad := some true }, none⟩).step =
        Step.admission_details :=
  claim_C10_hospital_lookup rand0 dates0 Lang.en
    { emptyState with hospitalId := some "uz-leuven", abroad := some true }
    ⟨"uz-leuven", "UZ Leuven", "Leuven"⟩ (by decide) rfl
